import Mathlib

/-!
Shallow embedding of the shift-reconstruction engine of
`src/services/timesheetService.ts`.

Modelling conventions:
* A JavaScript `Date` is its epoch value in milliseconds, modelled as `ℤ`
  (`getTime()`), with local time taken equal to UTC (no DST in the model).
  `getHours`, day starts and calendar arithmetic are derived from the epoch
  value by floored division/remainder, which matches the ECMAScript
  specification of those accessors for this time-zone choice.
* JavaScript number arithmetic on these magnitudes (milliseconds of modern
  dates, divisions by 60000 or 3600000) is exact in IEEE double precision as
  far as every comparison performed by the program is concerned; it is
  modelled as exact rational arithmetic (`ℚ`).
* `Math.random()` draws are modelled by explicit natural-number seeds
  (`r1` for the artificial-lunch length, `r2` for its placement):
  `Math.floor(Math.random() * n)` becomes `r % n` (and `0` when `n = 0`),
  which ranges over exactly the same values.
* Spreadsheet decoding, the UI and file export are external collaborators
  and are not modelled; `parseRawData` receives the decoded rows and an
  abstract string-to-date parser standing for the `new Date(string)`
  fallback.
-/

namespace Gestao

/-- Substring test on `Char` lists: does the second list occur, contiguously,
starting at the head of the first list? Used to model `String.includes`. -/
def startsWithChars : List Char → List Char → Bool
  | _, [] => true
  | [], _ :: _ => false
  | c :: cs, p :: ps => c == p && startsWithChars cs ps

/-- Substring test used to model JavaScript `String.prototype.includes`. -/
def hasSubChars (s pat : List Char) : Bool :=
  match s with
  | [] => startsWithChars [] pat
  | _ :: cs => startsWithChars s pat || hasSubChars cs pat

/-- Model of `s.includes(kw)` for JavaScript strings. -/
def strIncludes (s kw : String) : Bool :=
  hasSubChars s.data kw.data

/-- ASCII lower-casing of one character. JavaScript `toLowerCase` coincides
with this on the ASCII headers the keyword sniffing targets. -/
def charToLower (c : Char) : Char :=
  if 65 ≤ c.toNat ∧ c.toNat ≤ 90 then Char.ofNat (c.toNat + 32) else c

/-- Model of `String.prototype.toLowerCase` (ASCII range). -/
def strToLower (s : String) : String :=
  ⟨s.data.map charToLower⟩

/-- Model of `String.prototype.trim`: drop whitespace from both ends. -/
def strTrim (s : String) : String :=
  ⟨((s.data.dropWhile Char.isWhitespace).reverse.dropWhile Char.isWhitespace).reverse⟩

/-- Milliseconds in one minute. -/
def msPerMinute : ℤ := 60000

/-- Milliseconds in one hour. -/
def msPerHour : ℤ := 3600000

/-- Milliseconds in one day. -/
def msPerDay : ℤ := 86400000

/-- Model of `Date.prototype.getHours` (local time = UTC): hour of day in
`[0, 24)` of an epoch-millisecond value. -/
def getHours (t : ℤ) : ℤ := t % 86400000 / 3600000

/-- Model of `Date.prototype.getMinutes`. -/
def getMinutes (t : ℤ) : ℤ := t % 3600000 / 60000

/-- Model of `Date.prototype.getSeconds`. -/
def getSeconds (t : ℤ) : ℤ := t % 60000 / 1000

/-- Midnight of the calendar day containing `t`. -/
def dayStart (t : ℤ) : ℤ := t - t % 86400000

/-- Epoch days containing epoch-millisecond `t` (floored). -/
def daysFromMs (t : ℤ) : ℤ := t / 86400000

/-- Standard civil-from-days calendar conversion: epoch day count to
`(year, month, day)` of the proleptic Gregorian calendar. It models the
`getFullYear`/`getMonth`/`getDate` accessors of a JavaScript `Date`. -/
def civilOfDays (days : ℤ) : ℤ × ℕ × ℕ :=
  let z := days + 719468
  let era := z / 146097
  let doe := (z % 146097).toNat
  let yoe := (doe - doe / 1460 + doe / 36524 - doe / 146096) / 365
  let doy := doe - (365 * yoe + yoe / 4 - yoe / 100)
  let mp := (5 * doy + 2) / 153
  let d := doy - (153 * mp + 2) / 5 + 1
  let m := if mp < 10 then mp + 3 else mp - 9
  (era * 400 + yoe + (if 10 ≤ mp then 1 else 0), m, d)

/-- Model of `Date.prototype.getFullYear`. -/
def getFullYear (t : ℤ) : ℤ := (civilOfDays (daysFromMs t)).1

/-- Left-pad a decimal numeral to two digits, as `padStart(2, '0')`. -/
def pad2 (n : ℕ) : String :=
  if n < 10 then "0" ++ toString n else toString n

/-- Model of `formatDateOnly`: `YYYY-MM-DD` of an epoch-millisecond value. -/
def formatDateOnly (t : ℤ) : String :=
  let c := civilOfDays (daysFromMs t)
  toString c.1 ++ "-" ++ pad2 c.2.1 ++ "-" ++ pad2 c.2.2

/-- Model of `formatDuration`: clamp negative input to zero, then render
`HH:MM:SS` with `Math.floor(ms / 1000)` seconds. -/
def formatDuration (ms : ℚ) : String :=
  let ms := if ms < 0 then 0 else ms
  let totalSeconds := (ms / 1000).floor.toNat
  let h := totalSeconds / 3600
  let m := totalSeconds % 3600 / 60
  let s := totalSeconds % 60
  pad2 h ++ ":" ++ pad2 m ++ ":" ++ pad2 s

/-- Model of the `setDateTime` helper: `newDate.setHours(hours, minutes, 0, 0)`
on a copy of `baseDate`. -/
def setDateTime (baseDate hours minutes : ℤ) : ℤ :=
  dayStart baseDate + hours * 3600000 + minutes * 60000

/-- Model of `getLunchWindow`: the canonical meal window for a shift-start
timestamp, returned as `(windowStart, windowEnd)`. Mirrors the three-way
branch on `shiftStart.getHours()`, including the next-day rollover
(`refDate.setDate(refDate.getDate() + 1)`, i.e. one calendar day later)
for start hours at or after 18. -/
def getLunchWindow (shiftStart : ℤ) : ℤ × ℤ :=
  let startHour := getHours shiftStart
  if 5 ≤ startHour ∧ startHour < 13 then
    (setDateTime shiftStart 10 30, setDateTime shiftStart 14 30)
  else if 13 ≤ startHour ∧ startHour < 18 then
    (setDateTime shiftStart 17 30, setDateTime shiftStart 20 0)
  else
    let refDate := if 18 ≤ startHour then shiftStart + 86400000 else shiftStart
    (setDateTime refDate 0 30, setDateTime refDate 3 0)

/-- Model of `ProcessingConfig`. Fields are JavaScript numbers, modelled
as rationals. -/
structure ProcessingConfig where
  shiftThresholdHours : ℚ
  lunchMinDuration : ℚ
  lunchMaxDuration : ℚ
  defaultLunchDuration : ℚ
deriving DecidableEq

/-- Model of `DEFAULT_CONFIG`. -/
def DEFAULT_CONFIG : ProcessingConfig :=
  { shiftThresholdHours := 8
    lunchMinDuration := 45
    lunchMaxDuration := 75
    defaultLunchDuration := 60 }

/-- A consecutive-punch gap, as built by the gap loops of
`calculateSingleShift` and `calculateDailyWorkers` (`gaps.push({start, end,
durationMinutes})`). The source field `end` is a Lean keyword and is named
`stop` here. -/
structure Gap where
  start : ℤ
  stop : ℤ
  durationMinutes : ℚ
deriving DecidableEq

/-- The gap list of a punch sequence: one `Gap` per consecutive pair, in
order, with `durationMinutes = (end - start) / (1000 * 60)`. -/
def computeGaps (punches : List ℤ) : List Gap :=
  (punches.zip punches.tail).map fun p =>
    { start := p.1, stop := p.2, durationMinutes := ((p.2 - p.1 : ℤ) : ℚ) / (1000 * 60) }

/-- Duration filter of the lunch search: `g.durationMinutes >=
config.lunchMinDuration && g.durationMinutes <= config.lunchMaxDuration`. -/
def isValidGapDuration (config : ProcessingConfig) (g : Gap) : Bool :=
  decide (config.lunchMinDuration ≤ g.durationMinutes ∧ g.durationMinutes ≤ config.lunchMaxDuration)

/-- Containment filter of the multi-candidate branch: `g.start >= windowStart
&& g.end <= windowEnd`. -/
def isInsideWindow (windowStart windowEnd : ℤ) (g : Gap) : Bool :=
  decide (windowStart ≤ g.start ∧ g.stop ≤ windowEnd)

/-- Midpoint of a gap as used by the fallback comparator:
`a.start.getTime() + a.durationMinutes * 60 * 1000 / 2`. -/
def gapMid (g : Gap) : ℚ := (g.start : ℚ) + g.durationMinutes * 60 * 1000 / 2

/-- The `standardLunch` selection of `calculateSingleShift` (lines 544-567):
keep gaps whose duration is within the configured bounds; a single candidate
is used directly; with several, prefer the first one fully inside the window,
otherwise sort by distance of the gap midpoint to the window midpoint
(stable, as `Array.prototype.sort`) and take the first. -/
def pickStandardLunch (config : ProcessingConfig) (windowStart windowEnd : ℤ)
    (gaps : List Gap) : Option Gap :=
  let validGaps := gaps.filter (isValidGapDuration config)
  if validGaps.length = 1 then
    validGaps.head?
  else if 1 < validGaps.length then
    let insideWindow := validGaps.filter (isInsideWindow windowStart windowEnd)
    if 0 < insideWindow.length then
      insideWindow.head?
    else
      let windowMid : ℚ := ((windowStart : ℚ) + (windowEnd : ℚ)) / 2
      (validGaps.mergeSort fun a b =>
        decide (|gapMid a - windowMid| ≤ |gapMid b - windowMid|)).head?
  else
    none

/-- Lunch classification of a processed shift. -/
inductive LunchType where
  | NONE
  | NORMAL
  | ARTIFICIAL
deriving DecidableEq

/-- Model of `ProcessedShift`, with the internal `workedMs` value kept as a
field (the source exposes it through `workedHours` and `workedTimeStr`). -/
structure ProcessedShift where
  id : String
  person : String
  date : String
  startTime : ℤ
  endTime : ℤ
  lunchStart : Option ℤ
  lunchEnd : Option ℤ
  workedMs : ℤ
  workedHours : ℚ
  workedTimeStr : String
  lunchType : LunchType
  warnings : List String
deriving DecidableEq

/-- Model of `parseFloat(x.toFixed(2))`: round to two decimal places. -/
def round2 (q : ℚ) : ℚ := (round (q * 100) : ℚ) / 100

/-- The tail of `calculateSingleShift` (lines 602-627): derive `workedMs`
from the resolved lunch bounds — `(lunchStart − start) + (end − lunchEnd)`
when both are set, the full span otherwise — clamp it at zero, and build the
returned record (main path, so `warnings` is empty). -/
def buildShiftRecord (person : String) (start stop : ℤ)
    (lunchStart lunchEnd : Option ℤ) (lunchType : LunchType) : ProcessedShift :=
  let workedMs :=
    match lunchStart, lunchEnd with
    | some ls, some le => (ls - start) + (stop - le)
    | _, _ => stop - start
  let workedMs := if workedMs < 0 then 0 else workedMs
  { id := person ++ "-" ++ toString start
    person := person
    date := formatDateOnly start
    startTime := start
    endTime := stop
    lunchStart := lunchStart
    lunchEnd := lunchEnd
    workedMs := workedMs
    workedHours := round2 ((workedMs : ℚ) / (1000 * 60 * 60))
    workedTimeStr := formatDuration (workedMs : ℚ)
    lunchType := lunchType
    warnings := [] }

/-- Model of `calculateSingleShift`. `r1` and `r2` are the two
`Math.random()` draws of the artificial-lunch branch (length and offset). -/
def calculateSingleShift (person : String) (punches : List ℤ)
    (config : ProcessingConfig) (r1 r2 : ℕ) : ProcessedShift :=
  let start := punches.headD 0
  let stop := punches.getLastD 0
  let shiftDurationMs := stop - start
  if punches.length < 2 ∨ shiftDurationMs < 1000 * 60 * 60 then
    { id := person ++ "-" ++ toString start
      person := person
      date := formatDateOnly start
      startTime := start
      endTime := stop
      lunchStart := none
      lunchEnd := none
      workedMs := shiftDurationMs
      workedHours := (shiftDurationMs : ℚ) / (1000 * 60 * 60)
      workedTimeStr := formatDuration (shiftDurationMs : ℚ)
      lunchType := LunchType.NONE
      warnings := ["Turno com registro único ou muito curto"] }
  else
    let gaps := computeGaps punches
    let w := getLunchWindow start
    match pickStandardLunch config w.1 w.2 gaps with
    | some g => buildShiftRecord person start stop (some g.start) (some g.stop) LunchType.NORMAL
    | none =>
      let artificialMin : ℤ := 60 + (r1 % 6 : ℕ)
      let artificialMs : ℤ := artificialMin * 60 * 1000
      let safeShiftStart := start + 15 * 60000
      let safeShiftEnd := stop - 15 * 60000
      let validPeriodStart := max safeShiftStart w.1
      let validPeriodEnd := min safeShiftEnd w.2
      let availableTime := validPeriodEnd - validPeriodStart
      if artificialMs ≤ availableTime then
        let maxOffset := availableTime - artificialMs
        let randomOffset : ℤ := if maxOffset = 0 then 0 else (r2 : ℤ) % maxOffset
        let ls := validPeriodStart + randomOffset
        buildShiftRecord person start stop (some ls) (some (ls + artificialMs)) LunchType.ARTIFICIAL
      else
        buildShiftRecord person start stop none none LunchType.NONE

/-- The greedy segmentation loop shared by `processRecords` and
`calculateDailyWorkers`: `cur` is the current shift's accumulated punch list
(nonempty), and each further punch is appended when both the gap to the last
punch and the span from the first punch stay within the bounds (hours),
otherwise the current shift is emitted and a new one starts. -/
def segmentGo (thresholdHours hardCapHours : ℚ) (cur : List ℤ) :
    List ℤ → List (List ℤ)
  | [] => [cur]
  | punch :: rest =>
    let firstPunchInShift := cur.headD 0
    let lastPunch := cur.getLastD 0
    let diffHours := ((punch - lastPunch : ℤ) : ℚ) / (1000 * 60 * 60)
    let totalDurationHours := ((punch - firstPunchInShift : ℤ) : ℚ) / (1000 * 60 * 60)
    if diffHours ≤ thresholdHours ∧ totalDurationHours ≤ hardCapHours then
      segmentGo thresholdHours hardCapHours (cur ++ [punch]) rest
    else
      cur :: segmentGo thresholdHours hardCapHours [punch] rest

/-- Segmentation of one person's time-sorted punches into shifts. -/
def segmentPunches (thresholdHours hardCapHours : ℚ) : List ℤ → List (List ℤ)
  | [] => []
  | punch :: rest => segmentGo thresholdHours hardCapHours [punch] rest

/-- The per-person segmentation performed by `processRecords` (full-detail
mode): configurable gap threshold, hard span cap fixed at the literal 18
hours (line 475); no `ProcessingConfig` field reaches the cap. -/
def fullModeSegments (config : ProcessingConfig) (punches : List ℤ) : List (List ℤ) :=
  segmentPunches config.shiftThresholdHours 18 punches

/-- The per-person segmentation performed by `calculateDailyWorkers`:
`THRESHOLD_HOURS = 12` and `MAX_SHIFT_DURATION_HOURS = 16`, both literals. -/
def dailyModeSegments (punches : List ℤ) : List (List ℤ) :=
  segmentPunches 12 16 punches

/-- Model of `DailyWorkerRecord` for the fields the engine computes from the
punch times (metadata sniffed from the original row — cpf, categoria, grupo —
is not time-logic and is not modelled). `netMs` is the internal `durationMs`
after break subtraction, exposed through `horaTotal`. -/
structure DailyWorkerRecord where
  nome : String
  data : String
  chegada : ℤ
  saida : ℤ
  netMs : ℚ
  horaTotal : String
deriving DecidableEq

/-- Model of the `finalizeShift` closure of `calculateDailyWorkers`
(lines 139-207): arrival/departure are the first/last punch, and the first
gap of duration 45-75 minutes that strictly overlaps the canonical window
(`overlapStart < overlapEnd` with `overlapStart = max(gap.start,
windowStart)`, `overlapEnd = min(gap.end, windowEnd)`) is subtracted from
the span. Empty shifts produce nothing. -/
def dailyFinalizeShift (personName : String) (punches : List ℤ) :
    Option DailyWorkerRecord :=
  match punches with
  | [] => none
  | _ :: _ =>
    let start := punches.headD 0
    let stop := punches.getLastD 0
    let durationMs : ℚ := ((stop - start : ℤ) : ℚ)
    let gaps := computeGaps punches
    let w := getLunchWindow start
    let validGap := gaps.find? fun g =>
      decide (45 ≤ g.durationMinutes ∧ g.durationMinutes ≤ 75) &&
      decide (max g.start w.1 < min g.stop w.2)
    let durationMs :=
      match validGap with
      | some g => durationMs - g.durationMinutes * 60 * 1000
      | none => durationMs
    some
      { nome := personName
        data := formatDateOnly start
        chegada := start
        saida := stop
        netMs := durationMs
        horaTotal := formatDuration durationMs }

/-- The per-person pipeline of `calculateDailyWorkers`: segment with the
fixed 12h/16h bounds, then finalize each shift. -/
def calculateDailyWorkersPerson (personName : String) (punches : List ℤ) :
    List DailyWorkerRecord :=
  (dailyModeSegments punches).filterMap (dailyFinalizeShift personName)

/-- The per-person pipeline of `processRecords`: segment with the configured
threshold and the 18h cap, then compute each shift, drawing fresh randomness
per shift from the seed stream `rand`. -/
def processRecordsPerson (person : String) (config : ProcessingConfig)
    (rand : ℕ → ℕ × ℕ) (punches : List ℤ) : List ProcessedShift :=
  ((fullModeSegments config punches).enum.map fun si =>
    calculateSingleShift person si.2 config (rand si.1).1 (rand si.1).2)

/-- Cell values of a decoded spreadsheet row: a date cell (pre-typed by the
decoder), a text cell, or anything else rendered by `String(...)`. -/
inductive CellVal where
  | date (t : ℤ)
  | str (s : String)
  | other (s : String)
deriving DecidableEq

/-- A decoded row: a finite mapping from column header to cell value. -/
abbrev Row := List (String × CellVal)

/-- Model of `String(val)` for the cell values we distinguish. -/
def cellStr : CellVal → String
  | CellVal.date t => toString t
  | CellVal.str s => s
  | CellVal.other s => s

/-- Model of `RawRecord`. -/
structure RawRecord where
  Pessoa : String
  DataHora : ℤ
  Grupo : String
  OriginalRow : Row
deriving DecidableEq

/-- Person-column sniff of `parseRawData`. -/
def isPersonHeader (k : String) : Bool :=
  let header := strToLower k
  strIncludes header "pessoa" || strIncludes header "nome" ||
  strIncludes header "funcionario" || strIncludes header "empregado"

/-- Group-column sniff of `parseRawData`. -/
def isGroupHeader (k : String) : Bool :=
  strIncludes (strToLower k) "grupo" || strIncludes (strToLower k) "depto"

/-- Summary/metadata column filter of `parseRawData`. -/
def isSummaryHeader (k : String) : Bool :=
  let headerLower := strToLower k
  strIncludes headerLower "total" || strIncludes headerLower "saldo" ||
  strIncludes headerLower "banco" || strIncludes headerLower "horas" ||
  strIncludes headerLower "hrs" || strIncludes headerLower "trab" ||
  strIncludes headerLower "obs"

/-- Date-candidate extraction from one cell: a date cell is taken as is; a
string longer than 8 characters goes through the date parser (`parse` stands
for `new Date(val)` plus the `isNaN` check); everything else is skipped. -/
def dateCandidate (parse : String → Option ℤ) : CellVal → Option ℤ
  | CellVal.date t => some t
  | CellVal.str s => if 8 < s.length then parse s else none
  | CellVal.other _ => none

/-- The punches one row contributes in `parseRawData`: locate the person and
optional group columns, then scan every other non-summary column for a date
candidate and keep it unless it is exactly midnight or its year is before
2020. -/
def rowRecords (parse : String → Option ℤ) (row : Row) : List RawRecord :=
  match row.find? fun kv => isPersonHeader kv.1 with
  | none => []
  | some pkv =>
    let personName := strTrim (cellStr pkv.2)
    if personName = "" then []
    else
      let groupKey := row.find? fun kv => isGroupHeader kv.1
      let group :=
        match groupKey with
        | some gkv => strTrim (cellStr gkv.2)
        | none => "Default"
      row.filterMap fun kv =>
        if kv.1 = pkv.1 ∨ (groupKey.map Prod.fst) = some kv.1 then none
        else if isSummaryHeader kv.1 then none
        else
          match dateCandidate parse kv.2 with
          | none => none
          | some dateVal =>
            let isMidnight :=
              getHours dateVal = 0 ∧ getMinutes dateVal = 0 ∧ getSeconds dateVal = 0
            let isInvalidYear := getFullYear dateVal < 2020
            if ¬isMidnight ∧ ¬isInvalidYear then
              some
                { Pessoa := personName
                  DataHora := dateVal
                  Grupo := group
                  OriginalRow := row }
            else none

/-- Model of `parseRawData`: per-row extraction followed by the stable sort
by person then timestamp. -/
def parseRawData (parse : String → Option ℤ) (jsonData : List Row) : List RawRecord :=
  (jsonData.flatMap (rowRecords parse)).mergeSort fun a b =>
    decide (a.Pessoa < b.Pessoa) || (a.Pessoa == b.Pessoa && decide (a.DataHora ≤ b.DataHora))

/-- Concrete row used to exercise the normalizer: a name column and one date
cell at 2021-05-03 10:00:00. -/
def anaRow : Row := [("Nome", CellVal.str "Ana"), ("Data", CellVal.date 1620036000000)]

/-- The punch the normalizer extracts from `anaRow`. -/
def anaRecord : RawRecord :=
  { Pessoa := "Ana", DataHora := 1620036000000, Grupo := "Default", OriginalRow := anaRow }

/-! Helper lemmas. -/

lemma mem_of_head?_eq_some {α : Type} {l : List α} {a : α} (h : l.head? = some a) :
    a ∈ l := by
  cases l with
  | nil => simp at h
  | cons x xs =>
    simp only [List.head?_cons, Option.some.injEq] at h
    exact h ▸ List.mem_cons_self x xs

lemma getLastD_mem {l : List ℤ} (d : ℤ) (h : l ≠ []) : l.getLastD d ∈ l := by
  induction l generalizing d with
  | nil => exact absurd rfl h
  | cons x xs ih =>
    rw [List.getLastD_cons]
    cases hxs : xs with
    | nil => simp
    | cons y ys =>
      exact List.mem_cons_of_mem x (hxs ▸ ih x (by simp [hxs]))

lemma sorted_headD_le {l : List ℤ} (hs : l.Pairwise (· ≤ ·)) {a : ℤ} (ha : a ∈ l) :
    l.headD 0 ≤ a := by
  cases l with
  | nil => cases ha
  | cons x xs =>
    rcases List.mem_cons.mp ha with h | h
    · simp [h]
    · exact List.rel_of_pairwise_cons hs h

lemma sorted_le_getLastD {l : List ℤ} (hs : l.Pairwise (· ≤ ·)) {a : ℤ} (ha : a ∈ l) :
    a ≤ l.getLastD 0 := by
  induction l with
  | nil => cases ha
  | cons x xs ih =>
    cases xs with
    | nil =>
      rcases List.mem_cons.mp ha with h | h
      · simp [h]
      · cases h
    | cons y ys =>
      rw [List.getLastD_cons]
      rcases List.mem_cons.mp ha with h | h
      · subst h
        have hmem : (y :: ys).getLastD a ∈ y :: ys := getLastD_mem a (by simp)
        exact List.rel_of_pairwise_cons hs hmem
      · have h1 : a ≤ (y :: ys).getLastD 0 := ih hs.of_cons h
        rw [List.getLastD_cons] at h1 ⊢
        exact h1

lemma sorted_headD_le_getLastD {l : List ℤ} (hs : l.Pairwise (· ≤ ·)) (h : l ≠ []) :
    l.headD 0 ≤ l.getLastD 0 :=
  sorted_headD_le hs (getLastD_mem 0 h)

lemma computeGaps_cons (a b : ℤ) (t : List ℤ) :
    computeGaps (a :: b :: t)
      = { start := a, stop := b, durationMinutes := ((b - a : ℤ) : ℚ) / (1000 * 60) }
        :: computeGaps (b :: t) := by
  simp [computeGaps]

lemma mem_computeGaps {l : List ℤ} {g : Gap} (hg : g ∈ computeGaps l) :
    g.start ∈ l ∧ g.stop ∈ l ∧
      g.durationMinutes = ((g.stop - g.start : ℤ) : ℚ) / (1000 * 60) := by
  induction l with
  | nil => simp [computeGaps] at hg
  | cons a t ih =>
    cases t with
    | nil => simp [computeGaps] at hg
    | cons b t' =>
      rw [computeGaps_cons] at hg
      rcases List.mem_cons.mp hg with h | h
      · subst h
        refine ⟨List.mem_cons_self _ _, List.mem_cons_of_mem _ (List.mem_cons_self _ _), by simp⟩
      · obtain ⟨h1, h2, h3⟩ := ih h
        exact ⟨List.mem_cons_of_mem _ h1, List.mem_cons_of_mem _ h2, h3⟩

lemma pickStandardLunch_mem {config : ProcessingConfig} {ws we : ℤ} {gaps : List Gap}
    {g : Gap} (h : pickStandardLunch config ws we gaps = some g) :
    g ∈ gaps ∧ isValidGapDuration config g = true := by
  simp only [pickStandardLunch] at h
  have hvalid : g ∈ gaps.filter (isValidGapDuration config) → g ∈ gaps ∧ isValidGapDuration config g = true := by
    intro hm
    exact ⟨List.mem_of_mem_filter hm, List.of_mem_filter hm⟩
  split_ifs at h with h1 h2 h3
  · exact hvalid (mem_of_head?_eq_some h)
  · exact hvalid (List.mem_of_mem_filter (mem_of_head?_eq_some h))
  · refine hvalid ?_
    have := mem_of_head?_eq_some h
    exact (List.mergeSort_perm (gaps.filter (isValidGapDuration config)) _).mem_iff.mp this

lemma buildShiftRecord_startTime (p : String) (a b : ℤ) (ls le : Option ℤ) (t : LunchType) :
    (buildShiftRecord p a b ls le t).startTime = a := rfl

lemma buildShiftRecord_endTime (p : String) (a b : ℤ) (ls le : Option ℤ) (t : LunchType) :
    (buildShiftRecord p a b ls le t).endTime = b := rfl

lemma buildShiftRecord_lunchStart (p : String) (a b : ℤ) (ls le : Option ℤ) (t : LunchType) :
    (buildShiftRecord p a b ls le t).lunchStart = ls := rfl

lemma buildShiftRecord_lunchEnd (p : String) (a b : ℤ) (ls le : Option ℤ) (t : LunchType) :
    (buildShiftRecord p a b ls le t).lunchEnd = le := rfl

lemma buildShiftRecord_lunchType (p : String) (a b : ℤ) (ls le : Option ℤ) (t : LunchType) :
    (buildShiftRecord p a b ls le t).lunchType = t := rfl

lemma buildShiftRecord_warnings (p : String) (a b : ℤ) (ls le : Option ℤ) (t : LunchType) :
    (buildShiftRecord p a b ls le t).warnings = [] := rfl

lemma buildShiftRecord_workedMs_some (p : String) (a b ls le : ℤ) (t : LunchType) :
    (buildShiftRecord p a b (some ls) (some le) t).workedMs
      = if (ls - a) + (b - le) < 0 then 0 else (ls - a) + (b - le) := rfl

lemma buildShiftRecord_workedMs_none (p : String) (a b : ℤ) (t : LunchType) :
    (buildShiftRecord p a b none none t).workedMs
      = if b - a < 0 then 0 else b - a := rfl

lemma artificial_place_bounds {start stop ws we art ro : ℤ} (hart0 : 0 < art)
    (hart : art ≤ min (stop - 15 * 60000) we - max (start + 15 * 60000) ws)
    (hro0 : 0 ≤ ro)
    (hro1 : ro ≤ min (stop - 15 * 60000) we - max (start + 15 * 60000) ws - art) :
    start ≤ max (start + 15 * 60000) ws + ro ∧
    max (start + 15 * 60000) ws + ro < max (start + 15 * 60000) ws + ro + art ∧
    max (start + 15 * 60000) ws + ro + art ≤ stop := by
  omega

lemma randomOffset_bounds (r2 : ℕ) {maxOffset : ℤ} (h : 0 ≤ maxOffset) :
    0 ≤ (if maxOffset = 0 then 0 else (r2 : ℤ) % maxOffset) ∧
    (if maxOffset = 0 then 0 else (r2 : ℤ) % maxOffset) ≤ maxOffset := by
  split_ifs with h0
  · omega
  · have h1 : 0 ≤ (r2 : ℤ) % maxOffset := Int.emod_nonneg _ h0
    have h2 : (r2 : ℤ) % maxOffset < maxOffset := Int.emod_lt_of_pos _ (lt_of_le_of_ne h (Ne.symm h0))
    omega

/-- Main branch analysis of `calculateSingleShift` for a nonempty,
time-sorted punch list under a positive configured minimum break duration
(every configuration the application passes has `lunchMinDuration = 45`):
start/end are the first/last punch, the shift is well ordered, and the lunch
fields and worked milliseconds are characterized in each lunch-kind case. -/
lemma calculateSingleShift_spec (person : String) (config : ProcessingConfig)
    (r1 r2 : ℕ) (punches : List ℤ) (hs : punches.Pairwise (· ≤ ·))
    (hne : punches ≠ []) (hmin : 0 < config.lunchMinDuration) :
    (calculateSingleShift person punches config r1 r2).startTime = punches.headD 0 ∧
    (calculateSingleShift person punches config r1 r2).endTime = punches.getLastD 0 ∧
    (calculateSingleShift person punches config r1 r2).startTime ≤
      (calculateSingleShift person punches config r1 r2).endTime ∧
    ((calculateSingleShift person punches config r1 r2).lunchType = LunchType.NONE →
      (calculateSingleShift person punches config r1 r2).lunchStart = none ∧
      (calculateSingleShift person punches config r1 r2).lunchEnd = none ∧
      (calculateSingleShift person punches config r1 r2).workedMs
        = punches.getLastD 0 - punches.headD 0) ∧
    ((calculateSingleShift person punches config r1 r2).lunchType ≠ LunchType.NONE →
      ∃ ls le : ℤ,
        (calculateSingleShift person punches config r1 r2).lunchStart = some ls ∧
        (calculateSingleShift person punches config r1 r2).lunchEnd = some le ∧
        punches.headD 0 ≤ ls ∧ ls < le ∧ le ≤ punches.getLastD 0 ∧
        (calculateSingleShift person punches config r1 r2).workedMs
          = (ls - punches.headD 0) + (punches.getLastD 0 - le)) := by
  have hse : punches.headD 0 ≤ punches.getLastD 0 := sorted_headD_le_getLastD hs hne
  simp only [calculateSingleShift]
  split
  · exact ⟨rfl, rfl, hse, fun _ => ⟨rfl, rfl, rfl⟩, fun hn => absurd rfl hn⟩
  · next hcond =>
    split
    · next g hg =>
      obtain ⟨hmem, hdur⟩ := pickStandardLunch_mem hg
      obtain ⟨hstart_mem, hstop_mem, hdm⟩ := mem_computeGaps hmem
      have h1 : punches.headD 0 ≤ g.start := sorted_headD_le hs hstart_mem
      have h2 : g.stop ≤ punches.getLastD 0 := sorted_le_getLastD hs hstop_mem
      have h3 : g.start < g.stop := by
        simp only [isValidGapDuration, decide_eq_true_eq] at hdur
        have hlt : (0 : ℚ) < g.durationMinutes := lt_of_lt_of_le hmin hdur.1
        rw [hdm] at hlt
        have hpos : (0 : ℚ) < ((g.stop - g.start : ℤ) : ℚ) := by
          rcases div_pos_iff.mp hlt with ⟨ha, _⟩ | ⟨_, hb⟩
          · exact ha
          · norm_num at hb
        have : (0 : ℤ) < g.stop - g.start := by exact_mod_cast hpos
        omega
      refine ⟨rfl, rfl, hse, ?_, ?_⟩
      · intro hn
        rw [buildShiftRecord_lunchType] at hn
        simp at hn
      · intro _
        refine ⟨g.start, g.stop, rfl, rfl, h1, h3, h2, ?_⟩
        rw [buildShiftRecord_workedMs_some, if_neg (by omega)]
    · next hg =>
      split
      · next hart =>
        have hart0 : (0 : ℤ) < (60 + ((r1 % 6 : ℕ) : ℤ)) * 60 * 1000 := by
          have : (0 : ℤ) ≤ ((r1 % 6 : ℕ) : ℤ) := Int.ofNat_nonneg _
          omega
        obtain ⟨hro0, hro1⟩ := randomOffset_bounds r2
          (show (0 : ℤ) ≤ min (punches.getLastD 0 - 15 * 60000)
              (getLunchWindow (punches.headD 0)).2 -
            max (punches.headD 0 + 15 * 60000) (getLunchWindow (punches.headD 0)).1 -
            (60 + ((r1 % 6 : ℕ) : ℤ)) * 60 * 1000 by omega)
        obtain ⟨hb1, hb2, hb3⟩ := artificial_place_bounds hart0 (by omega) hro0 hro1
        refine ⟨rfl, rfl, hse, ?_, ?_⟩
        · intro hn
          rw [buildShiftRecord_lunchType] at hn
          simp at hn
        · intro _
          refine ⟨_, _, rfl, rfl, hb1, hb2, ?_, ?_⟩
          · exact hb3
          · rw [buildShiftRecord_workedMs_some, if_neg (by omega)]
      · next hart2 =>
        exact ⟨rfl, rfl, hse, fun _ => ⟨rfl, rfl, by
          rw [buildShiftRecord_workedMs_none, if_neg (by omega)]⟩, fun hn => absurd rfl hn⟩

/-- Claim C2: every full-detail shift satisfies start ≤ end, and when a lunch
is resolved (NORMAL or ARTIFICIAL) its bounds satisfy start ≤ lunchStart <
lunchEnd ≤ end. Hypotheses: the punch list is nonempty and time-sorted (the
consolidator always hands such lists over) and the configured minimum break
duration is positive (it is 45 in every configuration the application
passes). -/
theorem claim_C2 (person : String) (config : ProcessingConfig) (r1 r2 : ℕ)
    (punches : List ℤ) (hs : punches.Pairwise (· ≤ ·)) (hne : punches ≠ [])
    (hmin : 0 < config.lunchMinDuration) :
    (calculateSingleShift person punches config r1 r2).startTime ≤
      (calculateSingleShift person punches config r1 r2).endTime ∧
    ((calculateSingleShift person punches config r1 r2).lunchType ≠ LunchType.NONE →
      ∃ ls le : ℤ,
        (calculateSingleShift person punches config r1 r2).lunchStart = some ls ∧
        (calculateSingleShift person punches config r1 r2).lunchEnd = some le ∧
        (calculateSingleShift person punches config r1 r2).startTime ≤ ls ∧
        ls < le ∧
        le ≤ (calculateSingleShift person punches config r1 r2).endTime) := by
  obtain ⟨h1, h2, h3, _, h5⟩ :=
    calculateSingleShift_spec person config r1 r2 punches hs hne hmin
  refine ⟨h3, fun hn => ?_⟩
  obtain ⟨ls, le, hls, hle, b1, b2, b3, _⟩ := h5 hn
  exact ⟨ls, le, hls, hle, by rw [h1]; exact b1, b2, by rw [h2]; exact b3⟩

/-- Witness for C2 at the punch list 08:00, 12:05, 13:10, 17:00 (epoch day
zero) with the default configuration: the hypotheses hold and the invariant
follows by applying the theorem. -/
theorem claim_C2_witness :
    ([28800000, 43500000, 47400000, 61200000] : List ℤ).Pairwise (· ≤ ·) ∧
    ([28800000, 43500000, 47400000, 61200000] : List ℤ) ≠ [] ∧
    0 < DEFAULT_CONFIG.lunchMinDuration ∧
    ((calculateSingleShift "Ana" [28800000, 43500000, 47400000, 61200000]
        DEFAULT_CONFIG 0 0).startTime ≤
      (calculateSingleShift "Ana" [28800000, 43500000, 47400000, 61200000]
        DEFAULT_CONFIG 0 0).endTime ∧
    ((calculateSingleShift "Ana" [28800000, 43500000, 47400000, 61200000]
        DEFAULT_CONFIG 0 0).lunchType ≠ LunchType.NONE →
      ∃ ls le : ℤ,
        (calculateSingleShift "Ana" [28800000, 43500000, 47400000, 61200000]
          DEFAULT_CONFIG 0 0).lunchStart = some ls ∧
        (calculateSingleShift "Ana" [28800000, 43500000, 47400000, 61200000]
          DEFAULT_CONFIG 0 0).lunchEnd = some le ∧
        (calculateSingleShift "Ana" [28800000, 43500000, 47400000, 61200000]
          DEFAULT_CONFIG 0 0).startTime ≤ ls ∧
        ls < le ∧
        le ≤ (calculateSingleShift "Ana" [28800000, 43500000, 47400000, 61200000]
          DEFAULT_CONFIG 0 0).endTime)) :=
  ⟨by decide, by simp, by norm_num [DEFAULT_CONFIG],
    claim_C2 "Ana" DEFAULT_CONFIG 0 0 _ (by decide) (by simp)
      (by norm_num [DEFAULT_CONFIG])⟩

/-- Claim C4: worked-time conservation — with a resolved break, workedMs +
(lunchEnd − lunchStart) = end − start exactly; with no break, workedMs =
end − start; and workedMs is never negative (the clamp). Hypotheses as in
C2. -/
theorem claim_C4 (person : String) (config : ProcessingConfig) (r1 r2 : ℕ)
    (punches : List ℤ) (hs : punches.Pairwise (· ≤ ·)) (hne : punches ≠ [])
    (hmin : 0 < config.lunchMinDuration) :
    ((calculateSingleShift person punches config r1 r2).lunchType ≠ LunchType.NONE →
      ∃ ls le : ℤ,
        (calculateSingleShift person punches config r1 r2).lunchStart = some ls ∧
        (calculateSingleShift person punches config r1 r2).lunchEnd = some le ∧
        (calculateSingleShift person punches config r1 r2).workedMs + (le - ls)
          = (calculateSingleShift person punches config r1 r2).endTime -
            (calculateSingleShift person punches config r1 r2).startTime) ∧
    ((calculateSingleShift person punches config r1 r2).lunchType = LunchType.NONE →
      (calculateSingleShift person punches config r1 r2).workedMs
        = (calculateSingleShift person punches config r1 r2).endTime -
          (calculateSingleShift person punches config r1 r2).startTime) ∧
    0 ≤ (calculateSingleShift person punches config r1 r2).workedMs := by
  obtain ⟨h1, h2, h3, h4, h5⟩ :=
    calculateSingleShift_spec person config r1 r2 punches hs hne hmin
  refine ⟨fun hn => ?_, fun hn => ?_, ?_⟩
  · obtain ⟨ls, le, hls, hle, b1, b2, b3, hw⟩ := h5 hn
    exact ⟨ls, le, hls, hle, by rw [hw, h1, h2]; ring⟩
  · obtain ⟨_, _, hw⟩ := h4 hn
    rw [hw, h1, h2]
  · by_cases hn : (calculateSingleShift person punches config r1 r2).lunchType = LunchType.NONE
    · obtain ⟨_, _, hw⟩ := h4 hn
      rw [hw]
      rw [h1, h2] at h3
      omega
    · obtain ⟨ls, le, hls, hle, b1, b2, b3, hw⟩ := h5 hn
      rw [hw]
      omega

/-- Witness for C4 at the same concrete shift as the C2 witness. -/
theorem claim_C4_witness :
    ([28800000, 43500000, 47400000, 61200000] : List ℤ).Pairwise (· ≤ ·) ∧
    ([28800000, 43500000, 47400000, 61200000] : List ℤ) ≠ [] ∧
    0 < DEFAULT_CONFIG.lunchMinDuration ∧
    (((calculateSingleShift "Ana" [28800000, 43500000, 47400000, 61200000]
        DEFAULT_CONFIG 0 0).lunchType ≠ LunchType.NONE →
      ∃ ls le : ℤ,
        (calculateSingleShift "Ana" [28800000, 43500000, 47400000, 61200000]
          DEFAULT_CONFIG 0 0).lunchStart = some ls ∧
        (calculateSingleShift "Ana" [28800000, 43500000, 47400000, 61200000]
          DEFAULT_CONFIG 0 0).lunchEnd = some le ∧
        (calculateSingleShift "Ana" [28800000, 43500000, 47400000, 61200000]
          DEFAULT_CONFIG 0 0).workedMs + (le - ls)
          = (calculateSingleShift "Ana" [28800000, 43500000, 47400000, 61200000]
              DEFAULT_CONFIG 0 0).endTime -
            (calculateSingleShift "Ana" [28800000, 43500000, 47400000, 61200000]
              DEFAULT_CONFIG 0 0).startTime) ∧
    ((calculateSingleShift "Ana" [28800000, 43500000, 47400000, 61200000]
        DEFAULT_CONFIG 0 0).lunchType = LunchType.NONE →
      (calculateSingleShift "Ana" [28800000, 43500000, 47400000, 61200000]
        DEFAULT_CONFIG 0 0).workedMs
        = (calculateSingleShift "Ana" [28800000, 43500000, 47400000, 61200000]
            DEFAULT_CONFIG 0 0).endTime -
          (calculateSingleShift "Ana" [28800000, 43500000, 47400000, 61200000]
            DEFAULT_CONFIG 0 0).startTime) ∧
    0 ≤ (calculateSingleShift "Ana" [28800000, 43500000, 47400000, 61200000]
        DEFAULT_CONFIG 0 0).workedMs) :=
  ⟨by decide, by simp, by norm_num [DEFAULT_CONFIG],
    claim_C4 "Ana" DEFAULT_CONFIG 0 0 _ (by decide) (by simp)
      (by norm_num [DEFAULT_CONFIG])⟩

/-- Claim C7: the meal-window resolver maps a start hour in [18,24) to the
window 00:30-03:00 of the next calendar day, a start hour in [0,5) to
00:30-03:00 of the same day, [5,13) to 10:30-14:30 of the same day, and
[13,18) to 17:30-20:00 of the same day. -/
theorem claim_C7 (t : ℤ) :
    (18 ≤ getHours t →
      getLunchWindow t = (dayStart t + 86400000 + 1800000, dayStart t + 86400000 + 10800000)) ∧
    (0 ≤ getHours t ∧ getHours t < 5 →
      getLunchWindow t = (dayStart t + 1800000, dayStart t + 10800000)) ∧
    (5 ≤ getHours t ∧ getHours t < 13 →
      getLunchWindow t = (dayStart t + 37800000, dayStart t + 52200000)) ∧
    (13 ≤ getHours t ∧ getHours t < 18 →
      getLunchWindow t = (dayStart t + 63000000, dayStart t + 72000000)) := by
  simp only [getLunchWindow, setDateTime, dayStart, getHours]
  refine ⟨?_, ?_, ?_, ?_⟩ <;> intro h <;> split_ifs <;>
    simp only [Prod.mk.injEq] <;> omega

/-- Witness for C7 at the four concrete start times 23:00, 02:00, 08:00 and
14:00 of 1970-01-01. -/
theorem claim_C7_witness :
    (18 ≤ getHours 82800000 ∧ getLunchWindow 82800000 = (88200000, 97200000)) ∧
    (0 ≤ getHours 7200000 ∧ getHours 7200000 < 5 ∧
      getLunchWindow 7200000 = (1800000, 10800000)) ∧
    (5 ≤ getHours 28800000 ∧ getHours 28800000 < 13 ∧
      getLunchWindow 28800000 = (37800000, 52200000)) ∧
    (13 ≤ getHours 50400000 ∧ getHours 50400000 < 18 ∧
      getLunchWindow 50400000 = (63000000, 72000000)) := by
  refine ⟨⟨by decide, ?_⟩, ⟨by decide, by decide, ?_⟩, ⟨by decide, by decide, ?_⟩,
    ⟨by decide, by decide, ?_⟩⟩
  · simpa using (claim_C7 82800000).1 (by decide)
  · simpa using (claim_C7 7200000).2.1 (by decide)
  · simpa using (claim_C7 28800000).2.2.1 (by decide)
  · simpa using (claim_C7 50400000).2.2.2 (by decide)

/-- Claim C8: a full-detail shift with fewer than 2 punches or span below one
hour is returned with lunch kind NONE, null lunch bounds, worked time equal
to the span and the incomplete-shift warning; every other shift carries no
warnings. -/
theorem claim_C8 (person : String) (config : ProcessingConfig) (r1 r2 : ℕ)
    (punches : List ℤ) :
    (punches.length < 2 ∨ punches.getLastD 0 - punches.headD 0 < 1000 * 60 * 60 →
      (calculateSingleShift person punches config r1 r2).lunchType = LunchType.NONE ∧
      (calculateSingleShift person punches config r1 r2).lunchStart = none ∧
      (calculateSingleShift person punches config r1 r2).lunchEnd = none ∧
      (calculateSingleShift person punches config r1 r2).workedMs
        = punches.getLastD 0 - punches.headD 0 ∧
      (calculateSingleShift person punches config r1 r2).warnings
        = ["Turno com registro único ou muito curto"]) ∧
    (¬(punches.length < 2 ∨ punches.getLastD 0 - punches.headD 0 < 1000 * 60 * 60) →
      (calculateSingleShift person punches config r1 r2).warnings = []) := by
  simp only [calculateSingleShift]
  constructor
  · intro h
    rw [if_pos h]
    exact ⟨rfl, rfl, rfl, rfl, rfl⟩
  · intro h
    rw [if_neg h]
    split
    · exact buildShiftRecord_warnings ..
    · split
      · exact buildShiftRecord_warnings ..
      · exact buildShiftRecord_warnings ..

/-- Witness for C8: a single-punch shift gets the warning, and a clean
two-punch two-hour shift gets none. -/
theorem claim_C8_witness :
    ([(0 : ℤ)].length < 2 ∨ [(0 : ℤ)].getLastD 0 - [(0 : ℤ)].headD 0 < 1000 * 60 * 60) ∧
    ((calculateSingleShift "A" [0] DEFAULT_CONFIG 0 0).lunchType = LunchType.NONE ∧
      (calculateSingleShift "A" [0] DEFAULT_CONFIG 0 0).lunchStart = none ∧
      (calculateSingleShift "A" [0] DEFAULT_CONFIG 0 0).lunchEnd = none ∧
      (calculateSingleShift "A" [0] DEFAULT_CONFIG 0 0).workedMs
        = [(0 : ℤ)].getLastD 0 - [(0 : ℤ)].headD 0 ∧
      (calculateSingleShift "A" [0] DEFAULT_CONFIG 0 0).warnings
        = ["Turno com registro único ou muito curto"]) ∧
    ¬([(14400000 : ℤ), 21600000].length < 2 ∨
        [(14400000 : ℤ), 21600000].getLastD 0 - [(14400000 : ℤ), 21600000].headD 0
          < 1000 * 60 * 60) ∧
    (calculateSingleShift "A" [14400000, 21600000] DEFAULT_CONFIG 0 0).warnings = [] := by
  refine ⟨by decide, (claim_C8 "A" DEFAULT_CONFIG 0 0 [0]).1 (by decide), by decide,
    (claim_C8 "A" DEFAULT_CONFIG 0 0 [14400000, 21600000]).2 (by decide)⟩

lemma pickStandardLunch_eq_none {config : ProcessingConfig} {ws we : ℤ}
    {gaps : List Gap} (h : gaps.filter (isValidGapDuration config) = []) :
    pickStandardLunch config ws we gaps = none := by
  simp [pickStandardLunch, h]

/-- Claim C3: every ARTIFICIAL break lies inside the intersection of
[start + 15min, end − 15min] with the canonical window of the shift start,
its duration is between 60 and 65 minutes; and when no gap qualifies and
that intersection is shorter than the drawn target length, no break is
assigned (lunch kind NONE) with no error. -/
theorem claim_C3 (person : String) (config : ProcessingConfig) (r1 r2 : ℕ)
    (punches : List ℤ) :
    ((calculateSingleShift person punches config r1 r2).lunchType
        = LunchType.ARTIFICIAL →
      ∃ ls le : ℤ,
        (calculateSingleShift person punches config r1 r2).lunchStart = some ls ∧
        (calculateSingleShift person punches config r1 r2).lunchEnd = some le ∧
        max (punches.headD 0 + 15 * 60000) (getLunchWindow (punches.headD 0)).1 ≤ ls ∧
        le ≤ min (punches.getLastD 0 - 15 * 60000) (getLunchWindow (punches.headD 0)).2 ∧
        3600000 ≤ le - ls ∧ le - ls ≤ 3900000) ∧
    ((computeGaps punches).filter (isValidGapDuration config) = [] ∧
      min (punches.getLastD 0 - 15 * 60000) (getLunchWindow (punches.headD 0)).2 -
          max (punches.headD 0 + 15 * 60000) (getLunchWindow (punches.headD 0)).1 <
        (60 + ((r1 % 6 : ℕ) : ℤ)) * 60 * 1000 →
      (calculateSingleShift person punches config r1 r2).lunchType
        = LunchType.NONE) := by
  simp only [calculateSingleShift]
  split
  · exact ⟨fun h => LunchType.noConfusion h, fun _ => rfl⟩
  · next hcond =>
    split
    · next g hg =>
      constructor
      · intro h
        rw [buildShiftRecord_lunchType] at h
        cases h
      · rintro ⟨hempty, _⟩
        rw [pickStandardLunch_eq_none hempty] at hg
        cases hg
    · next hg =>
      split
      · next hart =>
        have hr6 : ((r1 % 6 : ℕ) : ℤ) ≤ 5 := by
          have : r1 % 6 < 6 := Nat.mod_lt _ (by omega)
          omega
        obtain ⟨hro0, hro1⟩ := randomOffset_bounds r2
          (show (0 : ℤ) ≤ min (punches.getLastD 0 - 15 * 60000)
              (getLunchWindow (punches.headD 0)).2 -
            max (punches.headD 0 + 15 * 60000) (getLunchWindow (punches.headD 0)).1 -
            (60 + ((r1 % 6 : ℕ) : ℤ)) * 60 * 1000 by omega)
        refine ⟨fun _ => ⟨_, _, rfl, rfl, ?_, ?_, ?_, ?_⟩, ?_⟩
        · omega
        · omega
        · have : (0 : ℤ) ≤ ((r1 % 6 : ℕ) : ℤ) := Int.ofNat_nonneg _
          omega
        · omega
        · rintro ⟨_, hlt⟩
          omega
      · next hart =>
        exact ⟨fun h => LunchType.noConfusion h, fun _ => rfl⟩

/-- Witness for C3: punches 08:00-16:00 synthesize an ARTIFICIAL break (the
first part of the theorem applies), and punches 04:00-06:00 leave a
too-short usable intersection, so no break is assigned (the second part
applies). -/
theorem claim_C3_witness :
    ((calculateSingleShift "B" [28800000, 57600000] DEFAULT_CONFIG 0 0).lunchType
        = LunchType.ARTIFICIAL ∧
      (∃ ls le : ℤ,
        (calculateSingleShift "B" [28800000, 57600000] DEFAULT_CONFIG 0 0).lunchStart
          = some ls ∧
        (calculateSingleShift "B" [28800000, 57600000] DEFAULT_CONFIG 0 0).lunchEnd
          = some le ∧
        max (([28800000, 57600000] : List ℤ).headD 0 + 15 * 60000)
            (getLunchWindow (([28800000, 57600000] : List ℤ).headD 0)).1 ≤ ls ∧
        le ≤ min (([28800000, 57600000] : List ℤ).getLastD 0 - 15 * 60000)
            (getLunchWindow (([28800000, 57600000] : List ℤ).headD 0)).2 ∧
        3600000 ≤ le - ls ∧ le - ls ≤ 3900000)) ∧
    (((computeGaps [(14400000 : ℤ), 21600000]).filter
          (isValidGapDuration DEFAULT_CONFIG) = [] ∧
        min (([(14400000 : ℤ), 21600000] : List ℤ).getLastD 0 - 15 * 60000)
            (getLunchWindow (([(14400000 : ℤ), 21600000] : List ℤ).headD 0)).2 -
          max (([(14400000 : ℤ), 21600000] : List ℤ).headD 0 + 15 * 60000)
            (getLunchWindow (([(14400000 : ℤ), 21600000] : List ℤ).headD 0)).1 <
          (60 + ((0 % 6 : ℕ) : ℤ)) * 60 * 1000) ∧
      (calculateSingleShift "B" [14400000, 21600000] DEFAULT_CONFIG 0 0).lunchType
        = LunchType.NONE) := by
  have hart : (calculateSingleShift "B" [28800000, 57600000] DEFAULT_CONFIG 0 0).lunchType
      = LunchType.ARTIFICIAL := by
    norm_num [calculateSingleShift, computeGaps, pickStandardLunch, isValidGapDuration,
      getLunchWindow, setDateTime, dayStart, getHours, buildShiftRecord, DEFAULT_CONFIG]
  have hshort : (computeGaps [(14400000 : ℤ), 21600000]).filter
        (isValidGapDuration DEFAULT_CONFIG) = [] ∧
      min (([(14400000 : ℤ), 21600000] : List ℤ).getLastD 0 - 15 * 60000)
          (getLunchWindow (([(14400000 : ℤ), 21600000] : List ℤ).headD 0)).2 -
        max (([(14400000 : ℤ), 21600000] : List ℤ).headD 0 + 15 * 60000)
          (getLunchWindow (([(14400000 : ℤ), 21600000] : List ℤ).headD 0)).1 <
        (60 + ((0 % 6 : ℕ) : ℤ)) * 60 * 1000 := by
    constructor
    · norm_num [computeGaps, isValidGapDuration, DEFAULT_CONFIG]
    · decide
  exact ⟨⟨hart, (claim_C3 "B" DEFAULT_CONFIG 0 0 [28800000, 57600000]).1 hart⟩,
    ⟨hshort, (claim_C3 "B" DEFAULT_CONFIG 0 0 [14400000, 21600000]).2 hshort⟩⟩

lemma headD_append_singleton {cur : List ℤ} (p : ℤ) (h : cur ≠ []) :
    (cur ++ [p]).headD 0 = cur.headD 0 := by
  cases cur with
  | nil => exact absurd rfl h
  | cons x xs => simp

lemma segmentGo_join (T cap : ℚ) :
    ∀ (rest cur : List ℤ), (segmentGo T cap cur rest).flatten = cur ++ rest := by
  intro rest
  induction rest with
  | nil => intro cur; simp [segmentGo]
  | cons p rest ih =>
    intro cur
    simp only [segmentGo]
    split_ifs
    · rw [ih (cur ++ [p])]
      simp
    · simp only [List.flatten_cons, ih [p]]
      simp

lemma segmentGo_span (T cap : ℚ) (hcap : 0 ≤ cap) :
    ∀ (rest cur : List ℤ), cur ≠ [] →
      ((cur.getLastD 0 - cur.headD 0 : ℤ) : ℚ) ≤ cap * (1000 * 60 * 60) →
      ∀ s ∈ segmentGo T cap cur rest,
        ((s.getLastD 0 - s.headD 0 : ℤ) : ℚ) ≤ cap * (1000 * 60 * 60) := by
  intro rest
  induction rest with
  | nil =>
    intro cur hne hspan s hss
    simp only [segmentGo, List.mem_singleton] at hss
    exact hss ▸ hspan
  | cons p rest ih =>
    intro cur hne hspan s hss
    simp only [segmentGo] at hss
    split_ifs at hss with hcond
    · refine ih (cur ++ [p]) (by simp) ?_ s hss
      have h2 := hcond.2
      rw [div_le_iff₀ (by norm_num : (0 : ℚ) < 1000 * 60 * 60)] at h2
      rw [headD_append_singleton p hne, List.getLastD_concat]
      exact h2
    · rcases List.mem_cons.mp hss with h | h
      · exact h ▸ hspan
      · refine ih [p] (by simp) ?_ s h
        simp only [List.getLastD_cons, List.headD_cons]
        have : (0 : ℚ) ≤ cap * (1000 * 60 * 60) := by positivity
        simpa using this

lemma segmentPunches_hardCap (T cap : ℚ) (hcap : 0 ≤ cap) (punches : List ℤ) :
    (∀ s ∈ segmentPunches T cap punches,
      ((s.getLastD 0 - s.headD 0 : ℤ) : ℚ) / (1000 * 60 * 60) ≤ cap) ∧
    (punches ≠ [] →
      cap < ((punches.getLastD 0 - punches.headD 0 : ℤ) : ℚ) / (1000 * 60 * 60) →
      2 ≤ (segmentPunches T cap punches).length) := by
  have key : ∀ s ∈ segmentPunches T cap punches,
      ((s.getLastD 0 - s.headD 0 : ℤ) : ℚ) ≤ cap * (1000 * 60 * 60) := by
    cases punches with
    | nil => intro s hs; simp [segmentPunches] at hs
    | cons p rest =>
      intro s hs
      refine segmentGo_span T cap hcap rest [p] (by simp) ?_ s hs
      simp only [List.getLastD_cons, List.headD_cons]
      have : (0 : ℚ) ≤ cap * (1000 * 60 * 60) := by positivity
      simpa using this
  constructor
  · intro s hs
    rw [div_le_iff₀ (by norm_num : (0 : ℚ) < 1000 * 60 * 60)]
    exact key s hs
  · intro hne hbig
    by_contra hlen
    push_neg at hlen
    interval_cases h : (segmentPunches T cap punches).length
    · exfalso
      have h0 : segmentPunches T cap punches = [] := List.length_eq_zero.mp h
      cases punches with
      | nil => exact hne rfl
      | cons p rest =>
        have hj := segmentGo_join T cap rest [p]
        rw [show segmentGo T cap [p] rest = [] from by simpa [segmentPunches] using h0] at hj
        simp at hj
    · obtain ⟨s, hs⟩ := List.length_eq_one.mp h
      have hjoin : (segmentPunches T cap punches).flatten = punches := by
        cases punches with
        | nil => simp [segmentPunches]
        | cons p rest => simpa [segmentPunches] using segmentGo_join T cap rest [p]
      have hsp : s = punches := by
        rw [hs] at hjoin
        simpa using hjoin
      have := key s (by simp [hs])
      rw [hsp] at this
      rw [lt_div_iff₀ (by norm_num : (0 : ℚ) < 1000 * 60 * 60)] at hbig
      linarith

/-- Claim C5: a punch sequence spanning more than the hard cap always splits
into at least two shifts, every produced shift spans at most the hard cap,
and the cap is 18 hours in full-detail mode (for every configuration — no
`ProcessingConfig` field reaches it) and 16 hours in daily-worker mode. -/
theorem claim_C5 (config : ProcessingConfig) (punches : List ℤ) (hne : punches ≠ []) :
    (∀ s ∈ fullModeSegments config punches,
      ((s.getLastD 0 - s.headD 0 : ℤ) : ℚ) / (1000 * 60 * 60) ≤ 18) ∧
    (18 < ((punches.getLastD 0 - punches.headD 0 : ℤ) : ℚ) / (1000 * 60 * 60) →
      2 ≤ (fullModeSegments config punches).length) ∧
    (∀ s ∈ dailyModeSegments punches,
      ((s.getLastD 0 - s.headD 0 : ℤ) : ℚ) / (1000 * 60 * 60) ≤ 16) ∧
    (16 < ((punches.getLastD 0 - punches.headD 0 : ℤ) : ℚ) / (1000 * 60 * 60) →
      2 ≤ (dailyModeSegments punches).length) := by
  obtain ⟨hfull1, hfull2⟩ :=
    segmentPunches_hardCap config.shiftThresholdHours 18 (by norm_num) punches
  obtain ⟨hdaily1, hdaily2⟩ := segmentPunches_hardCap 12 16 (by norm_num) punches
  exact ⟨hfull1, hfull2 hne, hdaily1, hdaily2 hne⟩

/-- Witness for C5: punches at 00:00, 07:00, 14:00 and 20:00 span 20 hours
with every gap at most 7 hours; both modes must produce at least two
shifts. -/
theorem claim_C5_witness :
    ([0, 25200000, 50400000, 72000000] : List ℤ) ≠ [] ∧
    18 < ((([0, 25200000, 50400000, 72000000] : List ℤ).getLastD 0 -
        ([0, 25200000, 50400000, 72000000] : List ℤ).headD 0 : ℤ) : ℚ) / (1000 * 60 * 60) ∧
    2 ≤ (fullModeSegments DEFAULT_CONFIG [0, 25200000, 50400000, 72000000]).length ∧
    2 ≤ (dailyModeSegments [0, 25200000, 50400000, 72000000]).length := by
  have hne : ([0, 25200000, 50400000, 72000000] : List ℤ) ≠ [] := by simp
  have hbig : (18 : ℚ) < ((([0, 25200000, 50400000, 72000000] : List ℤ).getLastD 0 -
      ([0, 25200000, 50400000, 72000000] : List ℤ).headD 0 : ℤ) : ℚ) / (1000 * 60 * 60) := by
    norm_num
  obtain ⟨_, h2, _, h4⟩ := claim_C5 DEFAULT_CONFIG [0, 25200000, 50400000, 72000000] hne
  exact ⟨hne, hbig, h2 hbig, h4 (lt_trans (by norm_num) hbig)⟩

/-- Claim C6: in full-detail segmentation, a consecutive gap of exactly the
configured threshold keeps the punch in the current shift (provided the
accumulated span stays within the 18-hour hard cap), while a gap strictly
above the threshold finalizes the current shift and starts a new one with
the later punch. -/
theorem claim_C6 (config : ProcessingConfig) (cur : List ℤ) (p : ℤ) (rest : List ℤ) :
    (((p - cur.getLastD 0 : ℤ) : ℚ) / (1000 * 60 * 60) = config.shiftThresholdHours →
      ((p - cur.headD 0 : ℤ) : ℚ) / (1000 * 60 * 60) ≤ 18 →
      segmentGo config.shiftThresholdHours 18 cur (p :: rest)
        = segmentGo config.shiftThresholdHours 18 (cur ++ [p]) rest) ∧
    (config.shiftThresholdHours < ((p - cur.getLastD 0 : ℤ) : ℚ) / (1000 * 60 * 60) →
      segmentGo config.shiftThresholdHours 18 cur (p :: rest)
        = cur :: segmentGo config.shiftThresholdHours 18 [p] rest) := by
  constructor
  · intro h1 h2
    rw [segmentGo]
    rw [if_pos ⟨le_of_eq h1, h2⟩]
  · intro h
    rw [segmentGo]
    rw [if_neg (fun hc => absurd hc.1 (not_le.mpr h))]

/-- Witness for C6 with the default 8-hour threshold: a gap of exactly 8
hours is merged, a gap of 8 hours plus one millisecond splits. -/
theorem claim_C6_witness :
    (((28800000 : ℤ) - ([0] : List ℤ).getLastD 0 : ℤ) : ℚ) / (1000 * 60 * 60)
      = DEFAULT_CONFIG.shiftThresholdHours ∧
    (((28800000 : ℤ) - ([0] : List ℤ).headD 0 : ℤ) : ℚ) / (1000 * 60 * 60) ≤ 18 ∧
    segmentGo DEFAULT_CONFIG.shiftThresholdHours 18 [0] [28800000]
      = segmentGo DEFAULT_CONFIG.shiftThresholdHours 18 [0, 28800000] [] ∧
    DEFAULT_CONFIG.shiftThresholdHours
      < (((28800001 : ℤ) - ([0] : List ℤ).getLastD 0 : ℤ) : ℚ) / (1000 * 60 * 60) ∧
    segmentGo DEFAULT_CONFIG.shiftThresholdHours 18 [0] [28800001]
      = [0] :: segmentGo DEFAULT_CONFIG.shiftThresholdHours 18 [28800001] [] := by
  have h1 : (((28800000 : ℤ) - ([0] : List ℤ).getLastD 0 : ℤ) : ℚ) / (1000 * 60 * 60)
      = DEFAULT_CONFIG.shiftThresholdHours := by
    norm_num [DEFAULT_CONFIG]
  have h2 : (((28800000 : ℤ) - ([0] : List ℤ).headD 0 : ℤ) : ℚ) / (1000 * 60 * 60) ≤ 18 := by
    norm_num
  have h3 : DEFAULT_CONFIG.shiftThresholdHours
      < (((28800001 : ℤ) - ([0] : List ℤ).getLastD 0 : ℤ) : ℚ) / (1000 * 60 * 60) := by
    rw [lt_div_iff₀ (by norm_num : (0 : ℚ) < 1000 * 60 * 60)]
    norm_num [DEFAULT_CONFIG]
  refine ⟨h1, h2, ?_, h3, ?_⟩
  · have hmerge := (claim_C6 DEFAULT_CONFIG [0] 28800000 []).1 h1 h2
    simpa using hmerge
  · exact (claim_C6 DEFAULT_CONFIG [0] 28800001 []).2 h3

lemma computeGaps_pairwise {l : List ℤ} (hs : l.Pairwise (· ≤ ·)) :
    (computeGaps l).Pairwise (fun g1 g2 => g1.start ≤ g2.start) := by
  induction l with
  | nil => simp [computeGaps]
  | cons a t ih =>
    cases t with
    | nil => simp [computeGaps]
    | cons b t' =>
      rw [computeGaps_cons]
      refine List.Pairwise.cons ?_ (ih hs.of_cons)
      intro g' hg'
      exact List.rel_of_pairwise_cons hs (mem_computeGaps hg').1

/-- Claim C10: with at least two duration-qualifying gaps of which at least
one is fully contained in the canonical window, the full-detail break search
selects the chronologically first fully-contained gap as a NORMAL lunch; the
midpoint tie-break is not consulted. Hypotheses: sorted punches, the shift
reaches the break search (at least two punches spanning at least one hour —
always the case when two 45-minute gaps exist), two qualifying gaps, one
contained. -/
theorem claim_C10 (person : String) (config : ProcessingConfig) (r1 r2 : ℕ)
    (punches : List ℤ) (hs : punches.Pairwise (· ≤ ·))
    (hspan : ¬(punches.length < 2 ∨
      punches.getLastD 0 - punches.headD 0 < 1000 * 60 * 60))
    (hvalid : 2 ≤ ((computeGaps punches).filter (isValidGapDuration config)).length)
    (hinside : (((computeGaps punches).filter (isValidGapDuration config)).filter
        (isInsideWindow (getLunchWindow (punches.headD 0)).1
          (getLunchWindow (punches.headD 0)).2)) ≠ []) :
    ∃ g : Gap,
      (((computeGaps punches).filter (isValidGapDuration config)).filter
          (isInsideWindow (getLunchWindow (punches.headD 0)).1
            (getLunchWindow (punches.headD 0)).2)).head? = some g ∧
      (calculateSingleShift person punches config r1 r2).lunchType = LunchType.NORMAL ∧
      (calculateSingleShift person punches config r1 r2).lunchStart = some g.start ∧
      (calculateSingleShift person punches config r1 r2).lunchEnd = some g.stop ∧
      ∀ g2 ∈ (((computeGaps punches).filter (isValidGapDuration config)).filter
          (isInsideWindow (getLunchWindow (punches.headD 0)).1
            (getLunchWindow (punches.headD 0)).2)),
        g.start ≤ g2.start := by
  obtain ⟨g, t, hgt⟩ := List.exists_cons_of_ne_nil hinside
  have hg : (((computeGaps punches).filter (isValidGapDuration config)).filter
      (isInsideWindow (getLunchWindow (punches.headD 0)).1
        (getLunchWindow (punches.headD 0)).2)).head? = some g := by
    rw [hgt]; rfl
  have hpick : pickStandardLunch config (getLunchWindow (punches.headD 0)).1
      (getLunchWindow (punches.headD 0)).2 (computeGaps punches) = some g := by
    simp only [pickStandardLunch]
    rw [if_neg (by omega), if_pos (by omega), if_pos (List.length_pos.mpr hinside)]
    exact hg
  have hpw : ((((computeGaps punches).filter (isValidGapDuration config)).filter
      (isInsideWindow (getLunchWindow (punches.headD 0)).1
        (getLunchWindow (punches.headD 0)).2))).Pairwise
      (fun g1 g2 => g1.start ≤ g2.start) :=
    ((computeGaps_pairwise hs).filter _).filter _
  refine ⟨g, hg, ?_, ?_, ?_, ?_⟩
  · simp only [calculateSingleShift]
    rw [if_neg hspan, hpick]
    rfl
  · simp only [calculateSingleShift]
    rw [if_neg hspan, hpick]
    rfl
  · simp only [calculateSingleShift]
    rw [if_neg hspan, hpick]
    rfl
  · intro g2 hg2
    rw [hgt] at hg2 hpw
    rcases List.mem_cons.mp hg2 with h | h
    · exact h ▸ le_refl _
    · exact List.rel_of_pairwise_cons hpw h

/-- Witness for C10: punches 08:00, 08:50, 11:00, 12:00, 17:00 give two
qualifying gaps (50 and 60 minutes); only the 11:00-12:00 gap is inside the
morning window, and it is selected. -/
theorem claim_C10_witness :
    ([28800000, 31800000, 39600000, 43200000, 61200000] : List ℤ).Pairwise (· ≤ ·) ∧
    ¬(([28800000, 31800000, 39600000, 43200000, 61200000] : List ℤ).length < 2 ∨
      ([28800000, 31800000, 39600000, 43200000, 61200000] : List ℤ).getLastD 0 -
        ([28800000, 31800000, 39600000, 43200000, 61200000] : List ℤ).headD 0
        < 1000 * 60 * 60) ∧
    2 ≤ ((computeGaps [28800000, 31800000, 39600000, 43200000, 61200000]).filter
        (isValidGapDuration DEFAULT_CONFIG)).length ∧
    (∃ g : Gap,
      (((computeGaps [28800000, 31800000, 39600000, 43200000, 61200000]).filter
          (isValidGapDuration DEFAULT_CONFIG)).filter
        (isInsideWindow
          (getLunchWindow
            (([28800000, 31800000, 39600000, 43200000, 61200000] : List ℤ).headD 0)).1
          (getLunchWindow
            (([28800000, 31800000, 39600000, 43200000, 61200000] : List ℤ).headD 0)).2)).head?
        = some g ∧
      (calculateSingleShift "C" [28800000, 31800000, 39600000, 43200000, 61200000]
        DEFAULT_CONFIG 0 0).lunchType = LunchType.NORMAL ∧
      (calculateSingleShift "C" [28800000, 31800000, 39600000, 43200000, 61200000]
        DEFAULT_CONFIG 0 0).lunchStart = some g.start ∧
      (calculateSingleShift "C" [28800000, 31800000, 39600000, 43200000, 61200000]
        DEFAULT_CONFIG 0 0).lunchEnd = some g.stop ∧
      ∀ g2 ∈ (((computeGaps [28800000, 31800000, 39600000, 43200000, 61200000]).filter
          (isValidGapDuration DEFAULT_CONFIG)).filter
        (isInsideWindow
          (getLunchWindow
            (([28800000, 31800000, 39600000, 43200000, 61200000] : List ℤ).headD 0)).1
          (getLunchWindow
            (([28800000, 31800000, 39600000, 43200000, 61200000] : List ℤ).headD 0)).2)),
        g.start ≤ g2.start) := by
  refine ⟨by decide, by decide, ?_, ?_⟩
  · norm_num [computeGaps, isValidGapDuration, DEFAULT_CONFIG]
  · refine claim_C10 "C" DEFAULT_CONFIG 0 0 _ (by decide) (by decide) ?_ ?_
    · norm_num [computeGaps, isValidGapDuration, DEFAULT_CONFIG]
    · norm_num [computeGaps, isValidGapDuration, isInsideWindow, DEFAULT_CONFIG,
        getLunchWindow, setDateTime, dayStart, getHours]

lemma find?_and_of_filter_singleton {α : Type} (p q : α → Bool) :
    ∀ (l : List α) (g : α), l.filter p = [g] →
      l.find? (fun x => p x && q x) = (if q g then some g else none) := by
  intro l
  induction l with
  | nil => intro g hg; simp at hg
  | cons x t ih =>
    intro g hg
    by_cases hp : p x
    · rw [List.filter_cons_of_pos hp] at hg
      obtain ⟨hxg, ht⟩ : x = g ∧ t.filter p = [] := by
        constructor
        · exact (List.cons_eq_cons.mp hg).1
        · exact (List.cons_eq_cons.mp hg).2
      subst hxg
      rw [List.find?_cons]
      by_cases hq : q x
      · simp [hp, hq]
      · have hnone : t.find? (fun y => p y && q y) = none := by
          rw [List.find?_eq_none]
          intro y hy
          have : ¬ p y = true := by
            have := List.filter_eq_nil_iff.mp ht
            exact this y hy
          simp [this]
        simp [hp, hq, hnone]
    · rw [List.filter_cons_of_neg hp] at hg
      rw [List.find?_cons]
      have : (p x && q x) = false := by simp [hp]
      simp only [this]
      exact ih g hg

lemma isValidGapDuration_default :
    isValidGapDuration DEFAULT_CONFIG
      = fun g => decide (45 ≤ g.durationMinutes ∧ g.durationMinutes ≤ 75) := by
  funext g
  simp [isValidGapDuration, DEFAULT_CONFIG]

/-- Counterexample to claim C1: punches 08:00, 08:30, 09:20, 16:00. The only
consecutive gap with duration in [45,75] minutes is 08:30-09:20 (50 min),
which the full-detail break search (steps 1-3, single candidate, used
unconditionally) selects — but it does not overlap the morning window
10:30-14:30, so the daily-worker consolidator subtracts nothing: its net
duration stays the full 8-hour span instead of span minus 50 minutes. -/
theorem claim_C1_counterexample :
    getLunchWindow 28800000 = (37800000, 52200000) ∧
    (computeGaps [28800000, 30600000, 33600000, 57600000]).filter
        (isValidGapDuration DEFAULT_CONFIG)
      = [{ start := 30600000, stop := 33600000, durationMinutes := 50 }] ∧
    pickStandardLunch DEFAULT_CONFIG 37800000 52200000
        (computeGaps [28800000, 30600000, 33600000, 57600000])
      = some { start := 30600000, stop := 33600000, durationMinutes := 50 } ∧
    (dailyFinalizeShift "D" [28800000, 30600000, 33600000, 57600000]).map
        DailyWorkerRecord.netMs
      = some 28800000 := by
  refine ⟨by decide, ?_, ?_, ?_⟩
  · norm_num [computeGaps, isValidGapDuration, DEFAULT_CONFIG, Gap.mk.injEq]
  · norm_num [pickStandardLunch, computeGaps, isValidGapDuration, DEFAULT_CONFIG,
      Gap.mk.injEq]
  · norm_num [dailyFinalizeShift, computeGaps, getLunchWindow, setDateTime, dayStart,
      getHours]

/-- Claim C1 (amended): the daily-worker consolidator does not run exactly
the full-detail steps 1-3. With a single duration-qualifying gap g (45-75
minutes under the default bounds), full-detail mode uses g unconditionally,
while the daily-worker consolidator subtracts g only when it strictly
overlaps the canonical window — otherwise it subtracts nothing; so its net
duration is span minus the gap when the gap overlaps the window and the
full span otherwise. -/
theorem claim_C1_amended (personName : String) (punches : List ℤ) (g : Gap)
    (hne : punches ≠ [])
    (hval : (computeGaps punches).filter (isValidGapDuration DEFAULT_CONFIG) = [g]) :
    pickStandardLunch DEFAULT_CONFIG (getLunchWindow (punches.headD 0)).1
      (getLunchWindow (punches.headD 0)).2 (computeGaps punches) = some g ∧
    ∃ r : DailyWorkerRecord, dailyFinalizeShift personName punches = some r ∧
      r.netMs = ((punches.getLastD 0 - punches.headD 0 : ℤ) : ℚ) -
        (if max g.start (getLunchWindow (punches.headD 0)).1
            < min g.stop (getLunchWindow (punches.headD 0)).2
          then g.durationMinutes * 60 * 1000 else 0) := by
  constructor
  · simp [pickStandardLunch, hval]
  · have hfind : (computeGaps punches).find? (fun x =>
        decide (45 ≤ x.durationMinutes ∧ x.durationMinutes ≤ 75) &&
        decide (max x.start (getLunchWindow (punches.headD 0)).1
          < min x.stop (getLunchWindow (punches.headD 0)).2))
        = (if decide (max g.start (getLunchWindow (punches.headD 0)).1
              < min g.stop (getLunchWindow (punches.headD 0)).2)
            then some g else none) := by
      refine find?_and_of_filter_singleton _ _ (computeGaps punches) g ?_
      rw [← isValidGapDuration_default]
      exact hval
    cases punches with
    | nil => exact absurd rfl hne
    | cons a t =>
      simp only [dailyFinalizeShift]
      refine ⟨_, rfl, ?_⟩
      simp only [List.headD_cons] at hfind ⊢
      rw [hfind]
      by_cases hover : max g.start (getLunchWindow a).1 < min g.stop (getLunchWindow a).2
      · simp [hover]
      · simp [hover]

/-- Witness for the amended C1 at the counterexample input: the 50-minute gap
08:30-09:20 is the unique qualifying gap, it does not overlap the window,
and the daily-worker net duration is the full span. -/
theorem claim_C1_amended_witness :
    ([28800000, 30600000, 33600000, 57600000] : List ℤ) ≠ [] ∧
    (computeGaps [28800000, 30600000, 33600000, 57600000]).filter
        (isValidGapDuration DEFAULT_CONFIG)
      = [{ start := 30600000, stop := 33600000, durationMinutes := 50 }] ∧
    (pickStandardLunch DEFAULT_CONFIG
        (getLunchWindow (([28800000, 30600000, 33600000, 57600000] : List ℤ).headD 0)).1
        (getLunchWindow (([28800000, 30600000, 33600000, 57600000] : List ℤ).headD 0)).2
        (computeGaps [28800000, 30600000, 33600000, 57600000])
      = some { start := 30600000, stop := 33600000, durationMinutes := 50 } ∧
    ∃ r : DailyWorkerRecord,
      dailyFinalizeShift "D" [28800000, 30600000, 33600000, 57600000] = some r ∧
      r.netMs = ((([28800000, 30600000, 33600000, 57600000] : List ℤ).getLastD 0 -
          ([28800000, 30600000, 33600000, 57600000] : List ℤ).headD 0 : ℤ) : ℚ) -
        (if max (30600000 : ℤ)
              (getLunchWindow
                (([28800000, 30600000, 33600000, 57600000] : List ℤ).headD 0)).1
            < min (33600000 : ℤ)
              (getLunchWindow
                (([28800000, 30600000, 33600000, 57600000] : List ℤ).headD 0)).2
          then (50 : ℚ) * 60 * 1000 else 0)) := by
  have hval : (computeGaps [28800000, 30600000, 33600000, 57600000]).filter
      (isValidGapDuration DEFAULT_CONFIG)
      = [{ start := 30600000, stop := 33600000, durationMinutes := 50 }] := by
    norm_num [computeGaps, isValidGapDuration, DEFAULT_CONFIG, Gap.mk.injEq]
  exact ⟨by simp, hval,
    claim_C1_amended "D" [28800000, 30600000, 33600000, 57600000]
      { start := 30600000, stop := 33600000, durationMinutes := 50 } (by simp) hval⟩

/-- Claim C9: every punch emitted by normalization has a timestamp with year
at least 2020 and a time of day that is not exactly midnight; candidate
cells failing either filter are silently excluded (they contribute no punch
and raise no error — `parseRawData` is total). -/
theorem claim_C9 (parse : String → Option ℤ) (rows : List Row) (rec : RawRecord)
    (h : rec ∈ parseRawData parse rows) :
    2020 ≤ getFullYear rec.DataHora ∧
    ¬(getHours rec.DataHora = 0 ∧ getMinutes rec.DataHora = 0 ∧
      getSeconds rec.DataHora = 0) := by
  simp only [parseRawData] at h
  have h' : rec ∈ rows.flatMap (rowRecords parse) :=
    (List.mergeSort_perm (rows.flatMap (rowRecords parse)) _).mem_iff.mp h
  obtain ⟨row, _, hmem⟩ := List.mem_flatMap.mp h'
  simp only [rowRecords] at hmem
  split at hmem
  · simp at hmem
  · next pkv hpkv =>
    split_ifs at hmem with hname
    · simp at hmem
    · obtain ⟨kv, _, hf⟩ := List.mem_filterMap.mp hmem
      split_ifs at hf
      split at hf
      · exact Option.noConfusion hf
      · next dateVal hdate =>
        split_ifs at hf with hcond
        obtain ⟨hmid, hyear⟩ := hcond
        have hrec := Option.some.inj hf
        have hdv : rec.DataHora = dateVal := by rw [← hrec]
        rw [hdv]
        exact ⟨by omega, hmid⟩

/-- Witness for C9: one row with a name column and one date cell on
2021-05-03 10:00:00 produces exactly that punch, and the invariant follows
by applying the theorem. -/
theorem claim_C9_witness :
    anaRecord ∈ parseRawData (fun _ => none) [anaRow] ∧
    (2020 ≤ getFullYear anaRecord.DataHora ∧
      ¬(getHours anaRecord.DataHora = 0 ∧ getMinutes anaRecord.DataHora = 0 ∧
        getSeconds anaRecord.DataHora = 0)) := by
  have hmem : anaRecord ∈ parseRawData (fun _ => none) [anaRow] := by
    simp only [parseRawData]
    refine (List.mergeSort_perm _ _).mem_iff.mpr ?_
    decide
  exact ⟨hmem, claim_C9 (fun _ => none) _ _ hmem⟩

end Gestao
